import Mathlib

/-!
A shallow embedding of `src/streamlit_app.py` (the Andok's Bulacan dashboards
script) together with proofs about its classification, loading, joining,
sorting and summary logic.

Python floats that carry exact decimal threshold constants and sales figures
are modelled as rationals (`ℚ`); a float that may be `None`/`NaN` is modelled
as `Option ℚ` with `none` standing for the missing value.
-/

namespace Andoks

/-! ## The SLD choropleth classifier (`sld_color`, lines 246-271) -/

/-- Function `sld_color(mean_0)` from the source: `None`/`NaN` and every value outside
the covered range map to grey `[200,200,200,150]`; otherwise an 11-way
if/elif chain over fixed thresholds picks one of ten fixed RGBA colors. -/
def sld_color : Option ℚ → List ℕ
  | none => [200, 200, 200, 150]
  | some mean_0 =>
    if 1.02915619443098993 ≤ mean_0 ∧ mean_0 ≤ 1.67021351760768 then
      [215, 25, 28, 150]
    else if 1.67021351760768 < mean_0 ∧ mean_0 ≤ 2.11293581101225003 then
      [232, 91, 59, 150]
    else if 2.11293581101225003 < mean_0 ∧ mean_0 ≤ 2.47597288754775002 then
      [249, 157, 89, 150]
    else if 2.47597288754775002 < mean_0 ∧ mean_0 ≤ 2.85005666392968982 then
      [254, 201, 129, 150]
    else if 2.85005666392968982 < mean_0 ∧ mean_0 ≤ 3.18201286704618003 then
      [255, 237, 171, 150]
    else if 3.18201286704618003 < mean_0 ∧ mean_0 ≤ 3.52431534195362017 then
      [235, 247, 173, 150]
    else if 3.52431534195362017 < mean_0 ∧ mean_0 ≤ 3.92996775043785984 then
      [196, 230, 135, 150]
    else if 3.92996775043785984 < mean_0 ∧ mean_0 ≤ 4.44667928886414021 then
      [150, 210, 101, 150]
    else if 4.44667928886414021 < mean_0 ∧ mean_0 ≤ 5.04817327088676038 then
      [88, 180, 83, 150]
    else if 5.04817327088676038 < mean_0 ∧ mean_0 ≤ 6.22406019477859029 then
      [26, 150, 65, 150]
    else
      [200, 200, 200, 150]

/-- The eleven threshold constants of `sld_color`, in source order. -/
def sldThresholds : List ℚ :=
  [1.02915619443098993, 1.67021351760768, 2.11293581101225003,
   2.47597288754775002, 2.85005666392968982, 3.18201286704618003,
   3.52431534195362017, 3.92996775043785984, 4.44667928886414021,
   5.04817327088676038, 6.22406019477859029]

/-- The ten bucket colors of `sld_color`, in source order. -/
def sldColors : List (List ℕ) :=
  [[215, 25, 28, 150], [232, 91, 59, 150], [249, 157, 89, 150],
   [254, 201, 129, 150], [255, 237, 171, 150], [235, 247, 173, 150],
   [196, 230, 135, 150], [150, 210, 101, 150], [88, 180, 83, 150],
   [26, 150, 65, 150]]

/-- The eleven RGBA values `sld_color` can return: the ten bucket colors and
the grey fallback. -/
def sldPalette : List (List ℕ) := sldColors ++ [[200, 200, 200, 150]]

/-- Membership of a score in the `k`-th threshold interval of `sld_color`:
bucket 0 is the closed interval `[t0, t1]`, bucket `k ≥ 1` is the left-open
right-closed interval `(tk, t(k+1)]`. -/
def inBucket : ℕ → ℚ → Prop
  | 0, x => (1.02915619443098993 : ℚ) ≤ x ∧ x ≤ 1.67021351760768
  | 1, x => (1.67021351760768 : ℚ) < x ∧ x ≤ 2.11293581101225003
  | 2, x => (2.11293581101225003 : ℚ) < x ∧ x ≤ 2.47597288754775002
  | 3, x => (2.47597288754775002 : ℚ) < x ∧ x ≤ 2.85005666392968982
  | 4, x => (2.85005666392968982 : ℚ) < x ∧ x ≤ 3.18201286704618003
  | 5, x => (3.18201286704618003 : ℚ) < x ∧ x ≤ 3.52431534195362017
  | 6, x => (3.52431534195362017 : ℚ) < x ∧ x ≤ 3.92996775043785984
  | 7, x => (3.92996775043785984 : ℚ) < x ∧ x ≤ 4.44667928886414021
  | 8, x => (4.44667928886414021 : ℚ) < x ∧ x ≤ 5.04817327088676038
  | 9, x => (5.04817327088676038 : ℚ) < x ∧ x ≤ 6.22406019477859029
  | _, _ => False

/-! ## The monthly-sales classifier (`sales_color` and its cutpoints,
lines 580-598) -/

/-- One step of numpy's default linear-interpolation percentile on an already
sorted sample `s`: with virtual index `h`, `i = ⌊h⌋` and the result is
`s[i] + (h - i) * (s[i+1] - s[i])` (the upper neighbour falling back to the
lower one at the right edge, where `h - i = 0` anyway). -/
def interpSorted (s : List ℚ) (h : ℚ) : ℚ :=
  s.getD (⌊h⌋).toNat 0
    + (h - ((⌊h⌋).toNat : ℚ))
      * (s.getD ((⌊h⌋).toNat + 1) (s.getD (⌊h⌋).toNat 0)
          - s.getD (⌊h⌋).toNat 0)

/-- Model of `np.percentile(l, q)` with the default linear interpolation: sort the
sample ascending and interpolate at virtual index `(len - 1) * q / 100`.
Meaningful for non-empty `l`, like the source's use on non-empty
`valid_sales`. -/
def percentileQ (l : List ℚ) (q : ℚ) : ℚ :=
  interpSorted (l.insertionSort (· ≤ ·))
    ((((l.insertionSort (· ≤ ·)).length : ℚ) - 1) * q / 100)

/-- Lines 581-586: `p25`/`p75` are `None` when the joined column has no
non-null sales, else the 25th and 75th `np.percentile` of the non-null
values. -/
def cutpoints (valid_sales : List ℚ) : Option ℚ × Option ℚ :=
  if valid_sales.isEmpty then (none, none)
  else (some (percentileQ valid_sales 25), some (percentileQ valid_sales 75))

/-- Function `sales_color(value)` from lines 588-596, with the two cutpoints the
Python closure reads from the enclosing scope made explicit parameters:
null value or undefined cutpoints give neutral grey, then value ≤ p25 is
orange, value < p75 is yellow, and everything else is green. -/
def sales_color (p25 p75 : Option ℚ) (value : Option ℚ) : List ℕ :=
  match value, p25, p75 with
  | some v, some a, some b =>
    if v ≤ a then [255, 165, 0, 180]
    else if v < b then [255, 255, 0, 180]
    else [0, 128, 0, 180]
  | _, _, _ => [200, 200, 200, 120]

/-- Rank of a `sales_color` output under the legend's ordering
orange < yellow < green (grey, which never occurs on classified values,
shares the bottom rank). -/
def classOrd (c : List ℕ) : ℕ :=
  if c = [255, 255, 0, 180] then 1 else if c = [0, 128, 0, 180] then 2 else 0

/-! ### Cells and numeric coercion (`pd.to_numeric(..., errors="coerce")`) -/

/-- A tabular source cell: `num q` is a cell carrying a numeric value
(including numeric strings, which `pd.to_numeric` parses), `str s` a
non-numeric string, `null` a missing value. -/
inductive Cell where
  | num : ℚ → Cell
  | str : String → Cell
  | null : Cell
deriving DecidableEq

/-- Cell-level `pd.to_numeric(col, errors="coerce")`: a non-numeric cell
becomes `NaN` (modelled `none`). -/
def coerceScore : Cell → Option ℚ
  | .num q => some q
  | _ => none

/-! ## Tabular frames and the three Excel loaders
(lines 88-143, 153-187, 317-349) -/

/-- A raw tabular sheet as `pd.read_excel` delivers it: named columns and
rows of cells (a row's cell for column `i` sits at index `i`). -/
structure RawFrame where
  cols : List String
  rows : List (List Cell)
deriving DecidableEq

/-- The empty `pd.DataFrame()` each loader returns on failure. -/
def RawFrame.empty : RawFrame := ⟨[], []⟩

/-- Pandas `df.empty`: some axis has length 0. -/
def RawFrame.isEmpty (f : RawFrame) : Bool := f.rows.isEmpty || f.cols.isEmpty

/-- Column-name normalisation `df.columns.str.strip().str.lower()`. -/
def normalizeCols (f : RawFrame) : RawFrame :=
  ⟨f.cols.map (fun c => c.trim.toLower), f.rows⟩

/-- Index of a named column, if present. -/
def RawFrame.colIdx (f : RawFrame) (c : String) : Option ℕ :=
  f.cols.findIdx? (fun d => d == c)

/-- Read a column (`df[c]`); only used on columns known to exist. -/
def RawFrame.getCol (f : RawFrame) (c : String) : List Cell :=
  match f.colIdx c with
  | some i => f.rows.map (fun r => r.getD i Cell.null)
  | none => f.rows.map (fun _ => Cell.null)

/-- Column assignment `df[name] = vals`: overwrite the column if present,
else append it on the right. -/
def RawFrame.setCol (f : RawFrame) (name : String) (vals : List Cell) : RawFrame :=
  match f.colIdx name with
  | some i => ⟨f.cols, (f.rows.zip vals).map (fun rv => rv.1.set i rv.2)⟩
  | none => ⟨f.cols ++ [name], (f.rows.zip vals).map (fun rv => rv.1 ++ [rv.2])⟩

def Cell.isNull : Cell → Bool
  | Cell.null => true
  | _ => false

/-- Pandas `df.dropna(subset=...)`: keep the rows whose cells at every subset
column are non-null. -/
def RawFrame.dropna (f : RawFrame) (subset : List String) : RawFrame :=
  ⟨f.cols, f.rows.filter (fun r =>
    (subset.filterMap f.colIdx).all (fun i => !(r.getD i Cell.null).isNull))⟩

/-- Column-level `pd.to_numeric(col, errors="coerce")` (also covering the
`.astype("Int64")` nullable casts of `year`/`month`, which keep integral
numeric values and turn `NaN` into the null `<NA>`). -/
def Cell.toNumeric : Cell → Cell
  | Cell.num q => Cell.num q
  | _ => Cell.null

/-- Pandas `col.astype(str)`. -/
def Cell.asStr : Cell → Cell
  | Cell.num q => Cell.str (toString q)
  | Cell.str s => Cell.str s
  | Cell.null => Cell.str "nan"

/-- Pandas `.str.upper().str.strip()` name cleaning used on both sides of the
monthly-sales join: uppercase every character, then strip leading and
trailing whitespace (implemented structurally over the character list so
that it evaluates inside the kernel; extensionally it is `toUpper` then
`trim`). -/
def cleanName (s : String) : String :=
  ⟨(((s.data.map Char.toUpper).dropWhile Char.isWhitespace).reverse.dropWhile
      Char.isWhitespace).reverse⟩

/-- Pandas `col.str.upper().str.strip()` on a string column. -/
def Cell.cleanStr : Cell → Cell
  | Cell.str s => Cell.str (cleanName s)
  | c => c

/-- The possible outcomes of locating and reading an Excel file, the two
effects each loader guards (`os.path.exists` and `try: pd.read_excel`). -/
inductive ReadResult where
  | missing : ReadResult
  | failed : String → ReadResult
  | ok : RawFrame → ReadResult

/-- The `st.warning` messages a loader can emit, one constructor per
warning site. -/
inductive Warn where
  | fileNotFound : Warn
  | readError : String → Warn
  | emptyFile : Warn
  | missingColumns : Warn
  | missingColumn : String → Warn
deriving DecidableEq

/-- Function `pick_column(candidates, available_cols)` from lines 112-116: the first
candidate present among the available columns. -/
def pick_column (candidates : List String) (available : List String) : Option String :=
  candidates.find? (fun c => available.contains c)

/-- Function `load_competitors_from_xlsx` (lines 88-143): warn and return an empty
frame on a missing file, a read error, an empty sheet or missing columns;
otherwise normalise columns, coerce lon/lat, stringify brand and drop rows
with null lat/lon. -/
def load_competitors_from_xlsx (input : ReadResult) : Option Warn × RawFrame :=
  match input with
  | ReadResult.missing => (some Warn.fileNotFound, RawFrame.empty)
  | ReadResult.failed e => (some (Warn.readError e), RawFrame.empty)
  | ReadResult.ok raw =>
    if raw.isEmpty then (some Warn.emptyFile, RawFrame.empty)
    else
      let df := normalizeCols raw
      let col_lon := pick_column ["longitude", "longtitude", "lon", "lng"] df.cols
      let col_lat := pick_column ["latitude", "lat"] df.cols
      let col_brand := pick_column ["brand", "brand_name"] df.cols
      if col_lon.isNone || col_lat.isNone || col_brand.isNone then
        (some Warn.missingColumns, RawFrame.empty)
      else
        let df1 := df.setCol "lon" ((df.getCol (col_lon.getD "")).map Cell.toNumeric)
        let df2 := df1.setCol "lat" ((df1.getCol (col_lat.getD "")).map Cell.toNumeric)
        let df3 := df2.setCol "brand" ((df2.getCol (col_brand.getD "")).map Cell.asStr)
        (none, df3.dropna ["lat", "lon"])

def branchesRequiredCols : List String :=
  ["outlet name", "outlet address", "latitude", "longitude"]

/-- Function `load_andoks_branches` (lines 153-187): same failure handling, fixed
required columns, coerce lat/lon, stringify name/address, drop null
lat/lon rows. -/
def load_andoks_branches (input : ReadResult) : Option Warn × RawFrame :=
  match input with
  | ReadResult.missing => (some Warn.fileNotFound, RawFrame.empty)
  | ReadResult.failed e => (some (Warn.readError e), RawFrame.empty)
  | ReadResult.ok raw =>
    if raw.isEmpty then (some Warn.emptyFile, RawFrame.empty)
    else
      let df := normalizeCols raw
      match branchesRequiredCols.find? (fun c => !(df.cols.contains c)) with
      | some c => (some (Warn.missingColumn c), RawFrame.empty)
      | none =>
        let df1 := df.setCol "lat" ((df.getCol "latitude").map Cell.toNumeric)
        let df2 := df1.setCol "lon" ((df1.getCol "longitude").map Cell.toNumeric)
        let df3 := df2.setCol "name" ((df2.getCol "outlet name").map Cell.asStr)
        let df4 := df3.setCol "address" ((df3.getCol "outlet address").map Cell.asStr)
        (none, df4.dropna ["lat", "lon"])

def monthlyRequiredCols : List String :=
  ["Municipality", "year", "month", "monthly_sales"]

/-- Function `load_monthly_sales` (lines 317-349): same failure handling (note: no
column normalisation here), then stringify and clean the municipality name,
coerce year/month/monthly_sales and drop rows where any of those three is
null. -/
def load_monthly_sales (input : ReadResult) : Option Warn × RawFrame :=
  match input with
  | ReadResult.missing => (some Warn.fileNotFound, RawFrame.empty)
  | ReadResult.failed e => (some (Warn.readError e), RawFrame.empty)
  | ReadResult.ok raw =>
    if raw.isEmpty then (some Warn.emptyFile, RawFrame.empty)
    else
      match monthlyRequiredCols.find? (fun c => !(raw.cols.contains c)) with
      | some c => (some (Warn.missingColumn c), RawFrame.empty)
      | none =>
        let df1 := raw.setCol "Municipality" ((raw.getCol "Municipality").map Cell.asStr)
        let df2 := df1.setCol "Municipality_clean"
          ((df1.getCol "Municipality").map Cell.cleanStr)
        let df3 := df2.setCol "year" ((df2.getCol "year").map Cell.toNumeric)
        let df4 := df3.setCol "month" ((df3.getCol "month").map Cell.toNumeric)
        let df5 := df4.setCol "monthly_sales"
          ((df4.getCol "monthly_sales").map Cell.toNumeric)
        (none, df5.dropna ["year", "month", "monthly_sales"])

/-! ## The monthly-sales join (lines 554-578) -/

/-- A cleaned row of the loaded monthly-sales table (rows with null year,
month or sales were dropped by the loader). -/
structure SalesRow where
  municipality : String
  year : ℤ
  month : ℤ
  monthly_sales : ℚ
deriving DecidableEq

/-- Lines 554-557: restrict the sales rows to the selected year and month. -/
def filterSales (sales : List SalesRow) (y m : ℤ) : List SalesRow :=
  sales.filter (fun r => r.year == y && r.month == m)

/-- Lines 563-568: `groupby("Municipality_clean")["monthly_sales"].sum()`
as an association list from cleaned name to summed sales. -/
def sales_agg (rows : List SalesRow) : List (String × ℚ) :=
  ((rows.map (fun r => cleanName r.municipality)).dedup).map
    (fun k => (k, ((rows.filter (fun r => cleanName r.municipality == k)).map
      SalesRow.monthly_sales).sum))

/-- The `sales_total` the left-merge of lines 573-578 attaches to one
municipality polygon: the aggregated sum under the polygon's cleaned name,
or null when no aggregated row matches. -/
def joinedTotal (sales : List SalesRow) (y m : ℤ) (nm : String) : Option ℚ :=
  (sales_agg (filterSales sales y m)).lookup (cleanName nm)

/-- The frame `gdf_joined` restricted to the columns the claims speak about: each
polygon's `MUNICIPAL` name paired with its (optional) `sales_total`. -/
def gdf_joined (munis : List String) (sales : List SalesRow) (y m : ℤ) :
    List (String × Option ℚ) :=
  munis.map (fun nm => (nm, joinedTotal sales y m nm))

/-! ## The two ranking tables (lines 513-525 and 662-666) and the site view -/

/-- A barangay polygon row restricted to the columns the site-selection
dashboard uses. -/
structure BRow where
  barangay_name : String
  citymun_name : String
  score : Option ℚ
deriving DecidableEq

/-- Sort order of `sort_values(ascending=False)` on a possibly-null numeric
key: larger values first, nulls last (pandas' `na_position="last"`). -/
def descLE : Option ℚ → Option ℚ → Prop
  | some x, some y => y ≤ x
  | some _, none => True
  | none, some _ => False
  | none, none => True

instance : DecidableRel descLE := fun a b =>
  match a, b with
  | some x, some y => inferInstanceAs (Decidable (y ≤ x))
  | some _, none => inferInstanceAs (Decidable True)
  | none, some _ => inferInstanceAs (Decidable False)
  | none, none => inferInstanceAs (Decidable True)

/-- Pandas `sort_values("score", ascending=False)` ordering on barangay rows. -/
def rankRel (a b : BRow) : Prop := descLE a.score b.score

instance : DecidableRel rankRel := fun a b =>
  inferInstanceAs (Decidable (descLE a.score b.score))

/-- Pandas `sort_values("Total monthly sales", ascending=False)` ordering on the
joined municipality rows. -/
def salesRel (a b : String × Option ℚ) : Prop := descLE a.2 b.2

instance : DecidableRel salesRel := fun a b =>
  inferInstanceAs (Decidable (descLE a.2 b.2))

/-- Lines 514-518: the filtered barangays sorted by score descending. -/
def rank_rows (filtered : List BRow) : List BRow :=
  filtered.insertionSort rankRel

/-- Lines 513-525: the Barangay Ranking table, sorted rows indexed from 1
(`rank_table.index = rank_table.index + 1`). -/
def rank_table (filtered : List BRow) : List (ℕ × BRow) :=
  (List.range' 1 (rank_rows filtered).length).zip (rank_rows filtered)

/-- Lines 662-666: the Municipality Sales Summary table, the joined rows
sorted by total monthly sales descending (the column renames are cosmetic
and omitted). -/
def summary_sales (joined : List (String × Option ℚ)) : List (String × Option ℚ) :=
  joined.insertionSort salesRel

/-- Lines 389-391: the sidebar municipality filter over the barangay
layer. -/
def gdf_filtered (gdf : List BRow) (selected_city : String) : List BRow :=
  if selected_city = "All" then gdf
  else gdf.filter (fun r => r.citymun_name == selected_city)

/-- Lines 498-509: the Municipality Summary, grouping the FULL barangay
layer by municipality with count, mean, min and max of the score column
(pandas groupby sorts keys and skips nulls in all four aggregates). -/
def municipalitySummary (gdf : List BRow) :
    List (String × ℕ × Option ℚ × Option ℚ × Option ℚ) :=
  (((gdf.map BRow.citymun_name).dedup).insertionSort (· ≤ ·)).map
    (fun k =>
      let scores := (gdf.filter (fun r => r.citymun_name == k)).filterMap BRow.score
      (k, scores.length,
        if scores.isEmpty then none else some (scores.sum / (scores.length : ℚ)),
        scores.min?, scores.max?))

/-- What the Site Selection dashboard renders besides the map: the
Municipality Summary and the Barangay Ranking. -/
structure SiteView where
  summary : List (String × ℕ × Option ℚ × Option ℚ × Option ℚ)
  ranking : List (ℕ × BRow)

/-- Lines 389-525 as a function of the full barangay layer and the selected
city: `st.stop()` on an empty filter result (modelled `none`), else the two
tables, the summary computed from the unfiltered layer. -/
def siteSelectionView (gdf : List BRow) (selected_city : String) : Option SiteView :=
  if (gdf_filtered gdf selected_city).isEmpty then none
  else some ⟨municipalitySummary gdf, rank_table (gdf_filtered gdf selected_city)⟩

instance : IsTotal (Option ℚ) descLE :=
  ⟨fun a b => by
    cases a <;> cases b <;> simp only [descLE] <;>
      first | exact Or.inl trivial | exact Or.inr trivial | exact le_total _ _⟩

instance : IsTrans (Option ℚ) descLE :=
  ⟨fun a b c hab hbc => by
    cases a <;> cases b <;> cases c
    all_goals simp only [descLE] at *
    all_goals try linarith⟩

instance : IsTotal BRow rankRel :=
  ⟨fun a b => total_of descLE a.score b.score⟩

instance : IsTrans BRow rankRel :=
  ⟨fun _ _ _ hab hbc => trans_of descLE hab hbc⟩

instance : IsTotal (String × Option ℚ) salesRel :=
  ⟨fun a b => total_of descLE a.2 b.2⟩

instance : IsTrans (String × Option ℚ) salesRel :=
  ⟨fun _ _ _ hab hbc => trans_of descLE hab hbc⟩

/-! ### Percentile monotonicity -/

lemma getD_eq_get_of_lt (s : List ℚ) (d : ℚ) {i : ℕ} (h : i < s.length) :
    s.getD i d = s.get ⟨i, h⟩ := by
  simp [List.getD_eq_getElem?_getD, List.getElem?_eq_getElem h]

lemma sorted_getD_mono {s : List ℚ} (hs : List.Sorted (· ≤ ·) s) {i j : ℕ}
    (hij : i ≤ j) (hj : j < s.length) : s.getD i 0 ≤ s.getD j 0 := by
  have hi : i < s.length := lt_of_le_of_lt hij hj
  rw [getD_eq_get_of_lt s 0 hi, getD_eq_get_of_lt s 0 hj]
  exact hs.rel_get_of_le hij

lemma lo_le_hi {s : List ℚ} (hs : List.Sorted (· ≤ ·) s) (i : ℕ) :
    s.getD i 0 ≤ s.getD (i + 1) (s.getD i 0) := by
  by_cases h : i + 1 < s.length
  · rw [getD_eq_get_of_lt s _ h, getD_eq_get_of_lt s 0 (Nat.lt_of_succ_lt h)]
    exact hs.rel_get_of_le (Nat.le_succ i)
  · simp [List.getD_eq_getElem?_getD, List.getElem?_eq_none (le_of_not_lt h)]

lemma toNat_floor_bounds {h : ℚ} (hh : 0 ≤ h) :
    ((⌊h⌋.toNat : ℚ) ≤ h) ∧ h < (⌊h⌋.toNat : ℚ) + 1 := by
  have h0 : (0 : ℤ) ≤ ⌊h⌋ := Int.floor_nonneg.mpr hh
  have e : ((⌊h⌋.toNat : ℕ) : ℚ) = ((⌊h⌋ : ℤ) : ℚ) := by
    exact_mod_cast congrArg (fun z : ℤ => (z : ℚ)) (Int.toNat_of_nonneg h0)
  rw [e]
  exact ⟨Int.floor_le h, Int.lt_floor_add_one h⟩

lemma interp_core {s : List ℚ} (hs : List.Sorted (· ≤ ·) s) {i1 i2 : ℕ}
    {h1 h2 : ℚ} (b1l : (i1 : ℚ) ≤ h1) (b1u : h1 < (i1 : ℚ) + 1)
    (b2l : (i2 : ℚ) ≤ h2) (b2u : h2 < (i2 : ℚ) + 1)
    (h12 : h1 ≤ h2) (hi2 : i2 < s.length) :
    s.getD i1 0 + (h1 - (i1 : ℚ)) * (s.getD (i1 + 1) (s.getD i1 0) - s.getD i1 0)
      ≤ s.getD i2 0
          + (h2 - (i2 : ℚ)) * (s.getD (i2 + 1) (s.getD i2 0) - s.getD i2 0) := by
  have hi12 : i1 ≤ i2 := by
    have hq : (i1 : ℚ) < (i2 : ℚ) + 1 := by linarith
    have : (i1 : ℚ) < ((i2 + 1 : ℕ) : ℚ) := by push_cast; linarith
    exact Nat.lt_succ_iff.mp (by exact_mod_cast this)
  rcases eq_or_lt_of_le hi12 with heq | hlt
  · subst heq
    have hAB := lo_le_hi hs i1
    have hm : (h1 - (i1 : ℚ)) * (s.getD (i1 + 1) (s.getD i1 0) - s.getD i1 0)
        ≤ (h2 - (i1 : ℚ)) * (s.getD (i1 + 1) (s.getD i1 0) - s.getD i1 0) :=
      mul_le_mul_of_nonneg_right (by linarith) (by linarith)
    linarith
  · have hi11 : i1 + 1 < s.length := Nat.lt_of_le_of_lt (Nat.succ_le_of_lt hlt) hi2
    have hAB := lo_le_hi hs i1
    have step1 : s.getD i1 0
        + (h1 - (i1 : ℚ)) * (s.getD (i1 + 1) (s.getD i1 0) - s.getD i1 0)
        ≤ s.getD (i1 + 1) (s.getD i1 0) := by
      have hm : (h1 - (i1 : ℚ)) * (s.getD (i1 + 1) (s.getD i1 0) - s.getD i1 0)
          ≤ 1 * (s.getD (i1 + 1) (s.getD i1 0) - s.getD i1 0) :=
        mul_le_mul_of_nonneg_right (by linarith) (by linarith)
      linarith
    have eB : s.getD (i1 + 1) (s.getD i1 0) = s.getD (i1 + 1) 0 := by
      rw [getD_eq_get_of_lt s _ hi11, getD_eq_get_of_lt s 0 hi11]
    have step2 : s.getD (i1 + 1) 0 ≤ s.getD i2 0 :=
      sorted_getD_mono hs (Nat.succ_le_of_lt hlt) hi2
    have hCD := lo_le_hi hs i2
    have step3 : (0 : ℚ)
        ≤ (h2 - (i2 : ℚ)) * (s.getD (i2 + 1) (s.getD i2 0) - s.getD i2 0) :=
      mul_nonneg (by linarith) (by linarith)
    linarith

lemma interpSorted_mono {s : List ℚ} (hs : List.Sorted (· ≤ ·) s)
    {h1 h2 : ℚ} (h1nn : 0 ≤ h1) (h12 : h1 ≤ h2)
    (h2ub : h2 ≤ (s.length : ℚ) - 1) :
    interpSorted s h1 ≤ interpSorted s h2 := by
  have h2nn : 0 ≤ h2 := le_trans h1nn h12
  obtain ⟨b1l, b1u⟩ := toNat_floor_bounds h1nn
  obtain ⟨b2l, b2u⟩ := toNat_floor_bounds h2nn
  have hi2 : (⌊h2⌋).toNat < s.length := by
    have : ((⌊h2⌋).toNat : ℚ) < (s.length : ℚ) := by linarith
    exact_mod_cast this
  unfold interpSorted
  exact interp_core hs b1l b1u b2l b2u h12 hi2

lemma percentileQ_mono (l : List ℚ) (hne : l ≠ []) {q1 q2 : ℚ}
    (hq1 : 0 ≤ q1) (hq12 : q1 ≤ q2) (hq2 : q2 ≤ 100) :
    percentileQ l q1 ≤ percentileQ l q2 := by
  unfold percentileQ
  have hsorted : List.Sorted (· ≤ ·) (l.insertionSort (· ≤ ·)) :=
    List.sorted_insertionSort _ l
  have hpos : 1 ≤ (l.insertionSort (· ≤ ·)).length := by
    rw [List.length_insertionSort]
    exact List.length_pos.mpr hne
  have hn : (1 : ℚ) ≤ ((l.insertionSort (· ≤ ·)).length : ℚ) := by
    exact_mod_cast hpos
  apply interpSorted_mono hsorted
  · exact div_nonneg (mul_nonneg (by linarith) hq1) (by norm_num)
  · gcongr
    linarith
  · rw [div_le_iff₀ (by norm_num : (0 : ℚ) < 100)]
    nlinarith

/-! ### Bucket-by-bucket evaluation of `sld_color` -/

lemma sld_bucket0 (x : ℚ) (h1 : (1.02915619443098993 : ℚ) ≤ x) (h2 : x ≤ 1.67021351760768) :
    sld_color (some x) = [215, 25, 28, 150] := by
  simp only [sld_color]
  rw [if_pos ⟨h1, h2⟩]

lemma sld_bucket1 (x : ℚ) (h1 : (1.67021351760768 : ℚ) < x) (h2 : x ≤ 2.11293581101225003) :
    sld_color (some x) = [232, 91, 59, 150] := by
  simp only [sld_color]
  rw [if_neg (by rintro ⟨-, h⟩; linarith), if_pos ⟨h1, h2⟩]

lemma sld_bucket2 (x : ℚ) (h1 : (2.11293581101225003 : ℚ) < x) (h2 : x ≤ 2.47597288754775002) :
    sld_color (some x) = [249, 157, 89, 150] := by
  simp only [sld_color]
  rw [if_neg (by rintro ⟨-, h⟩; linarith), if_neg (by rintro ⟨-, h⟩; linarith), if_pos ⟨h1, h2⟩]

lemma sld_bucket3 (x : ℚ) (h1 : (2.47597288754775002 : ℚ) < x) (h2 : x ≤ 2.85005666392968982) :
    sld_color (some x) = [254, 201, 129, 150] := by
  simp only [sld_color]
  rw [if_neg (by rintro ⟨-, h⟩; linarith), if_neg (by rintro ⟨-, h⟩; linarith), if_neg (by rintro ⟨-, h⟩; linarith), if_pos ⟨h1, h2⟩]

lemma sld_bucket4 (x : ℚ) (h1 : (2.85005666392968982 : ℚ) < x) (h2 : x ≤ 3.18201286704618003) :
    sld_color (some x) = [255, 237, 171, 150] := by
  simp only [sld_color]
  rw [if_neg (by rintro ⟨-, h⟩; linarith), if_neg (by rintro ⟨-, h⟩; linarith), if_neg (by rintro ⟨-, h⟩; linarith), if_neg (by rintro ⟨-, h⟩; linarith), if_pos ⟨h1, h2⟩]

lemma sld_bucket5 (x : ℚ) (h1 : (3.18201286704618003 : ℚ) < x) (h2 : x ≤ 3.52431534195362017) :
    sld_color (some x) = [235, 247, 173, 150] := by
  simp only [sld_color]
  rw [if_neg (by rintro ⟨-, h⟩; linarith), if_neg (by rintro ⟨-, h⟩; linarith), if_neg (by rintro ⟨-, h⟩; linarith), if_neg (by rintro ⟨-, h⟩; linarith), if_neg (by rintro ⟨-, h⟩; linarith), if_pos ⟨h1, h2⟩]

lemma sld_bucket6 (x : ℚ) (h1 : (3.52431534195362017 : ℚ) < x) (h2 : x ≤ 3.92996775043785984) :
    sld_color (some x) = [196, 230, 135, 150] := by
  simp only [sld_color]
  rw [if_neg (by rintro ⟨-, h⟩; linarith), if_neg (by rintro ⟨-, h⟩; linarith), if_neg (by rintro ⟨-, h⟩; linarith), if_neg (by rintro ⟨-, h⟩; linarith), if_neg (by rintro ⟨-, h⟩; linarith), if_neg (by rintro ⟨-, h⟩; linarith), if_pos ⟨h1, h2⟩]

lemma sld_bucket7 (x : ℚ) (h1 : (3.92996775043785984 : ℚ) < x) (h2 : x ≤ 4.44667928886414021) :
    sld_color (some x) = [150, 210, 101, 150] := by
  simp only [sld_color]
  rw [if_neg (by rintro ⟨-, h⟩; linarith), if_neg (by rintro ⟨-, h⟩; linarith), if_neg (by rintro ⟨-, h⟩; linarith), if_neg (by rintro ⟨-, h⟩; linarith), if_neg (by rintro ⟨-, h⟩; linarith), if_neg (by rintro ⟨-, h⟩; linarith), if_neg (by rintro ⟨-, h⟩; linarith), if_pos ⟨h1, h2⟩]

lemma sld_bucket8 (x : ℚ) (h1 : (4.44667928886414021 : ℚ) < x) (h2 : x ≤ 5.04817327088676038) :
    sld_color (some x) = [88, 180, 83, 150] := by
  simp only [sld_color]
  rw [if_neg (by rintro ⟨-, h⟩; linarith), if_neg (by rintro ⟨-, h⟩; linarith), if_neg (by rintro ⟨-, h⟩; linarith), if_neg (by rintro ⟨-, h⟩; linarith), if_neg (by rintro ⟨-, h⟩; linarith), if_neg (by rintro ⟨-, h⟩; linarith), if_neg (by rintro ⟨-, h⟩; linarith), if_neg (by rintro ⟨-, h⟩; linarith), if_pos ⟨h1, h2⟩]

lemma sld_bucket9 (x : ℚ) (h1 : (5.04817327088676038 : ℚ) < x) (h2 : x ≤ 6.22406019477859029) :
    sld_color (some x) = [26, 150, 65, 150] := by
  simp only [sld_color]
  rw [if_neg (by rintro ⟨-, h⟩; linarith), if_neg (by rintro ⟨-, h⟩; linarith), if_neg (by rintro ⟨-, h⟩; linarith), if_neg (by rintro ⟨-, h⟩; linarith), if_neg (by rintro ⟨-, h⟩; linarith), if_neg (by rintro ⟨-, h⟩; linarith), if_neg (by rintro ⟨-, h⟩; linarith), if_neg (by rintro ⟨-, h⟩; linarith), if_neg (by rintro ⟨-, h⟩; linarith), if_pos ⟨h1, h2⟩]

lemma sld_out_of_range (x : ℚ)
    (h : x < 1.02915619443098993 ∨ 6.22406019477859029 < x) :
    sld_color (some x) = [200, 200, 200, 150] := by
  simp only [sld_color]
  rcases h with h | h
  · rw [if_neg (by rintro ⟨h, -⟩; linarith), if_neg (by rintro ⟨h, -⟩; linarith), if_neg (by rintro ⟨h, -⟩; linarith), if_neg (by rintro ⟨h, -⟩; linarith), if_neg (by rintro ⟨h, -⟩; linarith), if_neg (by rintro ⟨h, -⟩; linarith), if_neg (by rintro ⟨h, -⟩; linarith), if_neg (by rintro ⟨h, -⟩; linarith), if_neg (by rintro ⟨h, -⟩; linarith), if_neg (by rintro ⟨h, -⟩; linarith)]
  · rw [if_neg (by rintro ⟨-, h⟩; linarith), if_neg (by rintro ⟨-, h⟩; linarith), if_neg (by rintro ⟨-, h⟩; linarith), if_neg (by rintro ⟨-, h⟩; linarith), if_neg (by rintro ⟨-, h⟩; linarith), if_neg (by rintro ⟨-, h⟩; linarith), if_neg (by rintro ⟨-, h⟩; linarith), if_neg (by rintro ⟨-, h⟩; linarith), if_neg (by rintro ⟨-, h⟩; linarith), if_neg (by rintro ⟨-, h⟩; linarith)]

lemma sld_mem_palette (x : Option ℚ) : sld_color x ∈ sldPalette := by
  cases x with
  | none => decide
  | some v =>
    rcases lt_or_le v (1.02915619443098993 : ℚ) with h0 | h0
    · rw [sld_out_of_range v (Or.inl h0)]; decide
    rcases le_or_lt v (1.67021351760768 : ℚ) with h1 | h1
    · rw [sld_bucket0 v h0 h1]; decide
    rcases le_or_lt v (2.11293581101225003 : ℚ) with h2 | h2
    · rw [sld_bucket1 v h1 h2]; decide
    rcases le_or_lt v (2.47597288754775002 : ℚ) with h3 | h3
    · rw [sld_bucket2 v h2 h3]; decide
    rcases le_or_lt v (2.85005666392968982 : ℚ) with h4 | h4
    · rw [sld_bucket3 v h3 h4]; decide
    rcases le_or_lt v (3.18201286704618003 : ℚ) with h5 | h5
    · rw [sld_bucket4 v h4 h5]; decide
    rcases le_or_lt v (3.52431534195362017 : ℚ) with h6 | h6
    · rw [sld_bucket5 v h5 h6]; decide
    rcases le_or_lt v (3.92996775043785984 : ℚ) with h7 | h7
    · rw [sld_bucket6 v h6 h7]; decide
    rcases le_or_lt v (4.44667928886414021 : ℚ) with h8 | h8
    · rw [sld_bucket7 v h7 h8]; decide
    rcases le_or_lt v (5.04817327088676038 : ℚ) with h9 | h9
    · rw [sld_bucket8 v h8 h9]; decide
    rcases le_or_lt v (6.22406019477859029 : ℚ) with h10 | h10
    · rw [sld_bucket9 v h9 h10]; decide
    rw [sld_out_of_range v (Or.inr h10)]
    decide

/-- Each threshold interval is classified to its listed color. -/
lemma sld_bucket_eq {k : ℕ} (hk : k < 10) {x : ℚ} (hx : inBucket k x) :
    sld_color (some x) = sldColors.getD k [] := by
  interval_cases k <;> simp only [inBucket] at hx
  · exact sld_bucket0 x hx.1 hx.2
  · exact sld_bucket1 x hx.1 hx.2
  · exact sld_bucket2 x hx.1 hx.2
  · exact sld_bucket3 x hx.1 hx.2
  · exact sld_bucket4 x hx.1 hx.2
  · exact sld_bucket5 x hx.1 hx.2
  · exact sld_bucket6 x hx.1 hx.2
  · exact sld_bucket7 x hx.1 hx.2
  · exact sld_bucket8 x hx.1 hx.2
  · exact sld_bucket9 x hx.1 hx.2

/-- The ten intervals cover the closed range from the lowest to the highest
threshold. -/
lemma inBucket_cover {x : ℚ} (hlo : (1.02915619443098993 : ℚ) ≤ x)
    (hhi : x ≤ (6.22406019477859029 : ℚ)) : ∃ k, k < 10 ∧ inBucket k x := by
  rcases le_or_lt x (1.67021351760768 : ℚ) with h1 | h1
  · exact ⟨0, by omega, by simp only [inBucket]; exact ⟨by linarith, h1⟩⟩
  rcases le_or_lt x (2.11293581101225003 : ℚ) with h2 | h2
  · exact ⟨1, by omega, by simp only [inBucket]; exact ⟨by linarith, h2⟩⟩
  rcases le_or_lt x (2.47597288754775002 : ℚ) with h3 | h3
  · exact ⟨2, by omega, by simp only [inBucket]; exact ⟨by linarith, h3⟩⟩
  rcases le_or_lt x (2.85005666392968982 : ℚ) with h4 | h4
  · exact ⟨3, by omega, by simp only [inBucket]; exact ⟨by linarith, h4⟩⟩
  rcases le_or_lt x (3.18201286704618003 : ℚ) with h5 | h5
  · exact ⟨4, by omega, by simp only [inBucket]; exact ⟨by linarith, h5⟩⟩
  rcases le_or_lt x (3.52431534195362017 : ℚ) with h6 | h6
  · exact ⟨5, by omega, by simp only [inBucket]; exact ⟨by linarith, h6⟩⟩
  rcases le_or_lt x (3.92996775043785984 : ℚ) with h7 | h7
  · exact ⟨6, by omega, by simp only [inBucket]; exact ⟨by linarith, h7⟩⟩
  rcases le_or_lt x (4.44667928886414021 : ℚ) with h8 | h8
  · exact ⟨7, by omega, by simp only [inBucket]; exact ⟨by linarith, h8⟩⟩
  rcases le_or_lt x (5.04817327088676038 : ℚ) with h9 | h9
  · exact ⟨8, by omega, by simp only [inBucket]; exact ⟨by linarith, h9⟩⟩
  exact ⟨9, by omega, by simp only [inBucket]; exact ⟨h9, hhi⟩⟩

set_option maxHeartbeats 1600000 in
/-- The ten intervals are pairwise disjoint. -/
lemma inBucket_disjoint {k j : ℕ} (hk : k < 10) (hj : j < 10) {x : ℚ}
    (hxk : inBucket k x) (hxj : inBucket j x) : k = j := by
  interval_cases k <;> interval_cases j <;>
    simp only [inBucket] at hxk hxj <;>
    first
      | rfl
      | (exfalso; linarith [hxk.1, hxk.2, hxj.1, hxj.2])

/-! ### Helper facts about `sales_color` -/

lemma sales_color_none (p q : Option ℚ) :
    sales_color p q none = [200, 200, 200, 120] := by
  cases p <;> cases q <;> rfl

lemma sales_color_some (a b v : ℚ) :
    sales_color (some a) (some b) (some v) =
      if v ≤ a then [255, 165, 0, 180]
      else if v < b then [255, 255, 0, 180]
      else [0, 128, 0, 180] := rfl

/-! ### The aggregation-lookup fact behind the sales join -/

lemma lookup_map_self (g : String → ℚ) (c : String) (keys : List String) :
    (keys.map (fun k => (k, g k))).lookup c
      = if c ∈ keys then some (g c) else none := by
  induction keys with
  | nil => rfl
  | cons k ks ih =>
    simp only [List.map_cons, List.lookup_cons, List.mem_cons]
    by_cases h : c = k
    · subst h
      simp
    · simp [ih, beq_eq_false_iff_ne.mpr h, h]

lemma sales_agg_lookup (rows : List SalesRow) (nm : String) :
    (sales_agg rows).lookup (cleanName nm)
      = if cleanName nm ∈ (rows.map (fun r => cleanName r.municipality)).dedup
        then some (((rows.filter
            (fun r => cleanName r.municipality == cleanName nm)).map
          SalesRow.monthly_sales).sum)
        else none := by
  unfold sales_agg
  exact lookup_map_self _ _ _

/-! ## Claim theorems: the two classifiers -/

/-- C1: `sld_color` is a fixed 11-bucket threshold-to-color mapping: every
input yields one of the eleven fixed RGBA colors; values in the closed first
interval map to `[215,25,28,150]`; values in each successive left-open
right-closed interval map to their listed color; `None`/`NaN` and values
outside the covered range map to grey `[200,200,200,150]`. -/
theorem C1_sld_color_classification :
    (∀ x : Option ℚ, sld_color x ∈ sldPalette)
  ∧ sld_color none = [200, 200, 200, 150]
  ∧ (∀ x : ℚ, (1.02915619443098993 : ℚ) ≤ x → x ≤ 1.67021351760768 →
      sld_color (some x) = [215, 25, 28, 150])
  ∧ (∀ k : ℕ, k < 10 → ∀ x : ℚ, inBucket k x →
      sld_color (some x) = sldColors.getD k [])
  ∧ (∀ x : ℚ, x < 1.02915619443098993 ∨ (6.22406019477859029 : ℚ) < x →
      sld_color (some x) = [200, 200, 200, 150]) := by
  refine ⟨sld_mem_palette, rfl, ?_, ?_, ?_⟩
  · exact fun x h1 h2 => sld_bucket0 x h1 h2
  · exact fun k hk x hx => sld_bucket_eq hk hx
  · exact fun x h => sld_out_of_range x h

/-- C1 witness: the theorem applied at score 3 (bucket 4) and at the
out-of-range score 0. -/
theorem C1_witness :
    sld_color (some (3 : ℚ)) = [255, 237, 171, 150]
  ∧ sld_color (some (0 : ℚ)) = [200, 200, 200, 150] := by
  constructor
  · exact C1_sld_color_classification.2.2.2.1 4 (by omega) 3 (by norm_num [inBucket])
  · exact C1_sld_color_classification.2.2.2.2 0 (Or.inl (by norm_num))

/-- C6: the ten colored intervals of `sld_color` are pairwise disjoint and
cover the closed range between the lowest and highest thresholds; every
interior threshold belongs to the lower bucket (in particular the value
`1.67021351760768` gets the first color, not the second); the lowest
threshold is in the first bucket and the highest in the last. -/
theorem C6_sld_color_boundaries :
    (∀ x : ℚ, (1.02915619443098993 : ℚ) ≤ x → x ≤ 6.22406019477859029 →
        ∃ k, k < 10 ∧ inBucket k x)
  ∧ (∀ k j : ℕ, k < 10 → j < 10 → ∀ x : ℚ, inBucket k x → inBucket j x → k = j)
  ∧ sld_color (some (1.67021351760768 : ℚ)) = [215, 25, 28, 150]
  ∧ sld_color (some (1.67021351760768 : ℚ)) ≠ [232, 91, 59, 150]
  ∧ (∀ k : ℕ, k < 9 →
      inBucket k (sldThresholds.getD (k + 1) 0)
    ∧ ¬ inBucket (k + 1) (sldThresholds.getD (k + 1) 0)
    ∧ sld_color (some (sldThresholds.getD (k + 1) 0)) = sldColors.getD k [])
  ∧ sld_color (some (1.02915619443098993 : ℚ)) = [215, 25, 28, 150]
  ∧ sld_color (some (6.22406019477859029 : ℚ)) = [26, 150, 65, 150] := by
  refine ⟨fun x h1 h2 => inBucket_cover h1 h2,
    fun k j hk hj x hxk hxj => inBucket_disjoint hk hj hxk hxj,
    sld_bucket0 _ (by norm_num) (by norm_num),
    ?_, ?_,
    sld_bucket0 _ (by norm_num) (by norm_num),
    sld_bucket9 _ (by norm_num) (by norm_num)⟩
  · rw [sld_bucket0 _ (by norm_num) (by norm_num)]; decide
  · intro k hk
    interval_cases k <;>
      exact ⟨by norm_num [inBucket, sldThresholds],
        by norm_num [inBucket, sldThresholds],
        sld_bucket_eq (by omega) (by norm_num [inBucket, sldThresholds])⟩

/-- C6 witness: coverage applied at score 2, and the interior-threshold
clause applied at the first interior threshold. -/
theorem C6_witness :
    (∃ k, k < 10 ∧ inBucket k (2 : ℚ))
  ∧ sld_color (some (sldThresholds.getD 1 0)) = sldColors.getD 0 [] :=
  ⟨C6_sld_color_boundaries.1 2 (by norm_num) (by norm_num),
   (C6_sld_color_boundaries.2.2.2.2.1 0 (by omega)).2.2⟩

/-- C5: both classifiers are pure functions of their (explicit) inputs: equal
arguments give equal `sld_color` outputs, and equal value/cutpoint triples
give equal `sales_color` outputs. In this embedding the two cutpoints the
Python closure reads from its enclosing scope are explicit parameters, so the
statement covers the whole data flow into each classifier. -/
theorem C5_classifiers_pure :
    (∀ x y : Option ℚ, x = y → sld_color x = sld_color y)
  ∧ (∀ p q a b v w : Option ℚ, p = q → a = b → v = w →
      sales_color p a v = sales_color q b w) :=
  ⟨fun x y h => by rw [h],
   fun p q a b v w h1 h2 h3 => by rw [h1, h2, h3]⟩

/-- C5 witness: determinism applied at concrete arguments. -/
theorem C5_witness :
    sld_color (some 2) = sld_color (some 2)
  ∧ sales_color (some 1) (some 3) (some 2) = sales_color (some 1) (some 3) (some 2) :=
  ⟨C5_classifiers_pure.1 (some 2) (some 2) rfl,
   C5_classifiers_pure.2 (some 1) (some 1) (some 3) (some 3) (some 2) (some 2)
     rfl rfl rfl⟩

/-- C2 counterexample: with a single aggregated sales value 100, both
percentile cutpoints equal 100; the value 100 satisfies `value ≥ p75` but
`sales_color` returns orange, not the green the claim promises for such
values. -/
theorem C2_counterexample :
    cutpoints [100] = (some 100, some 100)
  ∧ (100 : ℚ) ≥ 100
  ∧ sales_color (some 100) (some 100) (some 100) = [255, 165, 0, 180]
  ∧ sales_color (some 100) (some 100) (some 100) ≠ [0, 128, 0, 180] := by
  refine ⟨?_, le_rfl, by norm_num [sales_color], ?_⟩
  · norm_num [cutpoints, percentileQ, interpSorted, List.insertionSort,
      List.orderedInsert]
  · rw [show sales_color (some 100) (some 100) (some 100) = [255, 165, 0, 180]
      from by norm_num [sales_color]]
    decide

/-- C2 amended: with `p25`/`p75` the 25th and 75th percentiles of the
non-null aggregated totals, `sales_color` maps a null value (or undefined
cutpoints, which arise exactly when there are no non-null totals) to neutral
grey `[200,200,200,120]`, any value ≤ p25 to orange `[255,165,0,180]`, any
value strictly between p25 and p75 to yellow `[255,255,0,180]`, and any
value that is both > p25 and ≥ p75 to green `[0,128,0,180]` (when
p25 = p75, a value equal to both is orange: the ≤ p25 branch wins). -/
theorem C2_sales_color_amended :
    ∀ (valid : List ℚ) (x : ℚ),
      sales_color (cutpoints valid).1 (cutpoints valid).2 none = [200, 200, 200, 120]
    ∧ (valid = [] →
        sales_color (cutpoints valid).1 (cutpoints valid).2 (some x)
          = [200, 200, 200, 120])
    ∧ (valid ≠ [] →
        (x ≤ percentileQ valid 25 →
          sales_color (cutpoints valid).1 (cutpoints valid).2 (some x)
            = [255, 165, 0, 180])
      ∧ (percentileQ valid 25 < x → x < percentileQ valid 75 →
          sales_color (cutpoints valid).1 (cutpoints valid).2 (some x)
            = [255, 255, 0, 180])
      ∧ (percentileQ valid 25 < x → percentileQ valid 75 ≤ x →
          sales_color (cutpoints valid).1 (cutpoints valid).2 (some x)
            = [0, 128, 0, 180])) := by
  intro valid x
  refine ⟨sales_color_none _ _, ?_, ?_⟩
  · intro he
    subst he
    rfl
  · intro hne
    have hcut : cutpoints valid
        = (some (percentileQ valid 25), some (percentileQ valid 75)) := by
      simp [cutpoints, hne]
    rw [hcut]
    refine ⟨fun h1 => ?_, fun h1 h2 => ?_, fun h1 h2 => ?_⟩
    · rw [sales_color_some, if_pos h1]
    · rw [sales_color_some, if_neg (not_le.mpr h1), if_pos h2]
    · rw [sales_color_some, if_neg (not_le.mpr h1), if_neg (not_lt.mpr h2)]

/-- C2 witness: the amended theorem applied to the sample `[1,2,3,4]`
(whose cutpoints are 7/4 and 13/4) at the value 4, which is classified
green. -/
theorem C2_witness :
    sales_color (cutpoints [1, 2, 3, 4]).1 (cutpoints [1, 2, 3, 4]).2 (some 4)
      = [0, 128, 0, 180] :=
  ((C2_sales_color_amended [1, 2, 3, 4] 4).2.2 (by decide)).2.2
    (by norm_num [percentileQ, interpSorted, List.insertionSort, List.orderedInsert])
    (by norm_num [percentileQ, interpSorted, List.insertionSort, List.orderedInsert,
      show Int.toNat 2 = 2 from rfl])

/-- C7: `sales_color` is monotone on non-null inputs: the 25th percentile of
a non-empty sample never exceeds its 75th percentile, and for values a ≤ b
the class of a is ≤ the class of b under orange < yellow < green. -/
theorem C7_sales_color_monotone :
    ∀ (valid : List ℚ) (a b : ℚ), valid ≠ [] → a ≤ b →
      percentileQ valid 25 ≤ percentileQ valid 75
    ∧ classOrd (sales_color (cutpoints valid).1 (cutpoints valid).2 (some a))
        ≤ classOrd (sales_color (cutpoints valid).1 (cutpoints valid).2 (some b)) := by
  intro valid a b hne hab
  have hpp : percentileQ valid 25 ≤ percentileQ valid 75 :=
    percentileQ_mono valid hne (by norm_num) (by norm_num) (by norm_num)
  refine ⟨hpp, ?_⟩
  have hcut : cutpoints valid
      = (some (percentileQ valid 25), some (percentileQ valid 75)) := by
    simp [cutpoints, hne]
  rw [hcut, sales_color_some, sales_color_some]
  split_ifs <;> first | decide | linarith

/-- C7 witness: the theorem applied to the sample `[1,2,3,4]` and the
values 1 ≤ 4. -/
theorem C7_witness :
    percentileQ [1, 2, 3, 4] 25 ≤ percentileQ [1, 2, 3, 4] 75
  ∧ classOrd (sales_color (cutpoints [1, 2, 3, 4]).1 (cutpoints [1, 2, 3, 4]).2 (some 1))
      ≤ classOrd (sales_color (cutpoints [1, 2, 3, 4]).1 (cutpoints [1, 2, 3, 4]).2 (some 4)) :=
  C7_sales_color_monotone [1, 2, 3, 4] 1 4 (by decide) (by norm_num)

/-- C9: the score column is coerced cell-by-cell so that non-numeric cells
become `NaN`, and classifying the coerced column is total: it produces one
palette color per cell, with `NaN`/`None` taking the grey branch. -/
theorem C9_coerce_then_classify_total :
    (∀ cells : List Cell,
        ((cells.map coerceScore).map sld_color).length = cells.length
      ∧ ∀ c ∈ (cells.map coerceScore).map sld_color, c ∈ sldPalette)
  ∧ (∀ cell : Cell, (∀ q : ℚ, cell ≠ Cell.num q) →
      sld_color (coerceScore cell) = [200, 200, 200, 150])
  ∧ sld_color none = [200, 200, 200, 150] := by
  refine ⟨fun cells => ⟨by simp, ?_⟩, ?_, rfl⟩
  · intro c hc
    simp only [List.map_map, List.mem_map] at hc
    obtain ⟨cell, -, rfl⟩ := hc
    exact sld_mem_palette _
  · intro cell h
    cases cell with
    | num q => exact absurd rfl (h q)
    | str s => rfl
    | null => rfl

/-- C9 witness: the theorem applied to a non-numeric cell and a small
column. -/
theorem C9_witness :
    sld_color (coerceScore (Cell.str "n/a")) = [200, 200, 200, 150]
  ∧ ((([Cell.null] : List Cell).map coerceScore).map sld_color).length = 1 :=
  ⟨C9_coerce_then_classify_total.2.1 (Cell.str "n/a") (fun _ h => Cell.noConfusion h),
   (C9_coerce_then_classify_total.1 [Cell.null]).1⟩

/-- C3: each tabular loader warns and returns the empty frame on every load
failure — missing file, read exception, empty sheet, or absent required
column — and (being a total function into `Option Warn × RawFrame`) never
propagates an error to its caller. -/
theorem C3_loaders_fail_safe :
    (load_competitors_from_xlsx ReadResult.missing
        = (some Warn.fileNotFound, RawFrame.empty)
    ∧ (∀ e, load_competitors_from_xlsx (ReadResult.failed e)
        = (some (Warn.readError e), RawFrame.empty))
    ∧ (∀ raw, raw.isEmpty = true →
        load_competitors_from_xlsx (ReadResult.ok raw)
          = (some Warn.emptyFile, RawFrame.empty))
    ∧ (∀ raw, raw.isEmpty = false →
        (pick_column ["longitude", "longtitude", "lon", "lng"]
            (normalizeCols raw).cols = none
        ∨ pick_column ["latitude", "lat"] (normalizeCols raw).cols = none
        ∨ pick_column ["brand", "brand_name"] (normalizeCols raw).cols = none) →
        load_competitors_from_xlsx (ReadResult.ok raw)
          = (some Warn.missingColumns, RawFrame.empty)))
  ∧ (load_andoks_branches ReadResult.missing
        = (some Warn.fileNotFound, RawFrame.empty)
    ∧ (∀ e, load_andoks_branches (ReadResult.failed e)
        = (some (Warn.readError e), RawFrame.empty))
    ∧ (∀ raw, raw.isEmpty = true →
        load_andoks_branches (ReadResult.ok raw)
          = (some Warn.emptyFile, RawFrame.empty))
    ∧ (∀ raw c, raw.isEmpty = false →
        branchesRequiredCols.find? (fun c => !((normalizeCols raw).cols.contains c))
          = some c →
        load_andoks_branches (ReadResult.ok raw)
          = (some (Warn.missingColumn c), RawFrame.empty)))
  ∧ (load_monthly_sales ReadResult.missing
        = (some Warn.fileNotFound, RawFrame.empty)
    ∧ (∀ e, load_monthly_sales (ReadResult.failed e)
        = (some (Warn.readError e), RawFrame.empty))
    ∧ (∀ raw, raw.isEmpty = true →
        load_monthly_sales (ReadResult.ok raw)
          = (some Warn.emptyFile, RawFrame.empty))
    ∧ (∀ raw c, raw.isEmpty = false →
        monthlyRequiredCols.find? (fun c => !(raw.cols.contains c)) = some c →
        load_monthly_sales (ReadResult.ok raw)
          = (some (Warn.missingColumn c), RawFrame.empty))) := by
  refine ⟨⟨rfl, fun e => rfl, ?_, ?_⟩, ⟨rfl, fun e => rfl, ?_, ?_⟩,
    ⟨rfl, fun e => rfl, ?_, ?_⟩⟩
  · intro raw h
    simp [load_competitors_from_xlsx, h]
  · intro raw hne hmiss
    rcases hmiss with h | h | h <;>
      simp [load_competitors_from_xlsx, hne, h]
  · intro raw h
    simp [load_andoks_branches, h]
  · intro raw c hne hfind
    simp only [load_andoks_branches, hne, Bool.false_eq_true, if_false]
    rw [hfind]
  · intro raw h
    simp [load_monthly_sales, h]
  · intro raw c hne hfind
    simp only [load_monthly_sales, hne, Bool.false_eq_true, if_false]
    rw [hfind]

/-- C3 witness: the theorem applied to an empty competitors sheet, to a
monthly-sales sheet missing its `year` column, and to a missing branches
file. -/
theorem C3_witness :
    load_competitors_from_xlsx (ReadResult.ok ⟨[], []⟩)
      = (some Warn.emptyFile, RawFrame.empty)
  ∧ load_monthly_sales (ReadResult.ok ⟨["Municipality"], [[Cell.num 1]]⟩)
      = (some (Warn.missingColumn "year"), RawFrame.empty)
  ∧ load_andoks_branches ReadResult.missing
      = (some Warn.fileNotFound, RawFrame.empty) :=
  ⟨C3_loaders_fail_safe.1.2.2.1 ⟨[], []⟩ (by decide),
   C3_loaders_fail_safe.2.2.2.2.2 ⟨["Municipality"], [[Cell.num 1]]⟩ "year"
     (by decide) (by decide),
   C3_loaders_fail_safe.2.1.1⟩

/-- C4: for the selected year and month, each polygon's `sales_total` is the
sum of `monthly_sales` over exactly the sales rows matching the selection
whose cleaned municipality name equals the polygon's cleaned `MUNICIPAL`
name; a polygon with no matching rows gets a null total, which `sales_color`
renders grey. The joined layer carries one row per polygon, in order. -/
theorem C4_sales_join :
    ∀ (munis : List String) (sales : List SalesRow) (y m : ℤ),
      (gdf_joined munis sales y m).map Prod.fst = munis
    ∧ ∀ p ∈ gdf_joined munis sales y m,
        ((filterSales sales y m).filter
            (fun r => cleanName r.municipality == cleanName p.1) = [] →
          p.2 = none
        ∧ ∀ c1 c2 : Option ℚ, sales_color c1 c2 p.2 = [200, 200, 200, 120])
      ∧ ((filterSales sales y m).filter
            (fun r => cleanName r.municipality == cleanName p.1) ≠ [] →
          p.2 = some ((((filterSales sales y m).filter
            (fun r => cleanName r.municipality == cleanName p.1)).map
              SalesRow.monthly_sales).sum)) := by
  intro munis sales y m
  constructor
  · simp [gdf_joined, Function.comp_def]
  · intro p hp
    obtain ⟨nm, hnm, rfl⟩ := List.mem_map.mp hp
    constructor
    · intro hempty
      have hmem : cleanName nm
          ∉ ((filterSales sales y m).map (fun r => cleanName r.municipality)).dedup := by
        rw [List.mem_dedup, List.mem_map]
        rintro ⟨r, hr, hrn⟩
        have hrf : r ∈ (filterSales sales y m).filter
            (fun r => cleanName r.municipality == cleanName nm) :=
          List.mem_filter.mpr ⟨hr, by simp [hrn]⟩
        rw [hempty] at hrf
        exact absurd hrf (List.not_mem_nil r)
      have hnone : joinedTotal sales y m nm = none := by
        unfold joinedTotal
        rw [sales_agg_lookup, if_neg hmem]
      exact ⟨hnone, fun c1 c2 => by
        show sales_color c1 c2 (joinedTotal sales y m nm) = _
        rw [hnone]
        exact sales_color_none c1 c2⟩
    · intro hne
      have hmem : cleanName nm
          ∈ ((filterSales sales y m).map (fun r => cleanName r.municipality)).dedup := by
        rw [List.mem_dedup, List.mem_map]
        obtain ⟨r, hr⟩ := List.exists_mem_of_ne_nil _ hne
        obtain ⟨hr_mem, hr_p⟩ := List.mem_filter.mp hr
        exact ⟨r, hr_mem, by simpa using hr_p⟩
      show joinedTotal sales y m nm = _
      unfold joinedTotal
      rw [sales_agg_lookup, if_pos hmem]

/-- C4 witness: the theorem applied to a one-polygon layer with no sales
rows: the joined total is null. -/
theorem C4_witness : joinedTotal [] 2023 4 "Malolos" = none :=
  (((C4_sales_join ["Malolos"] [] 2023 4).2
    ("Malolos", joinedTotal [] 2023 4 "Malolos") (by simp [gdf_joined])).1 rfl).1

/-- C8: the Barangay Ranking table contains exactly the filtered barangays,
sorted by score descending (nulls last) and indexed 1..n; the Municipality
Sales Summary contains exactly the joined municipality rows sorted by total
monthly sales descending (nulls last). -/
theorem C8_tables_sorted_desc :
    (∀ filtered : List BRow,
        ((rank_table filtered).map Prod.snd).Perm filtered
      ∧ List.Sorted rankRel ((rank_table filtered).map Prod.snd)
      ∧ (rank_table filtered).map Prod.fst = List.range' 1 filtered.length)
  ∧ (∀ joined : List (String × Option ℚ),
        (summary_sales joined).Perm joined
      ∧ List.Sorted salesRel (summary_sales joined)) := by
  constructor
  · intro filtered
    have hlen : (List.range' 1 (rank_rows filtered).length).length
        = (rank_rows filtered).length := List.length_range' 1 1 _
    have hsnd : (rank_table filtered).map Prod.snd = rank_rows filtered := by
      unfold rank_table
      exact List.map_snd_zip _ _ (le_of_eq hlen.symm)
    refine ⟨?_, ?_, ?_⟩
    · rw [hsnd]
      exact List.perm_insertionSort rankRel filtered
    · rw [hsnd]
      exact List.sorted_insertionSort rankRel filtered
    · unfold rank_table
      rw [List.map_fst_zip _ _ (le_of_eq hlen)]
      unfold rank_rows
      rw [List.length_insertionSort]
  · intro joined
    exact ⟨List.perm_insertionSort salesRel joined,
      List.sorted_insertionSort salesRel joined⟩

/-- C10: the Municipality Summary is computed from the full barangay layer,
so any two city selections that leave the filtered layer non-empty render
the identical summary (and it always equals the summary of the full
layer). -/
theorem C10_summary_filter_independent :
    ∀ (gdf : List BRow) (sel1 sel2 : String),
      (gdf_filtered gdf sel1).isEmpty = false →
      (gdf_filtered gdf sel2).isEmpty = false →
      (siteSelectionView gdf sel1).map SiteView.summary
        = (siteSelectionView gdf sel2).map SiteView.summary
    ∧ (siteSelectionView gdf sel1).map SiteView.summary
        = some (municipalitySummary gdf) := by
  intro gdf s1 s2 h1 h2
  unfold siteSelectionView
  rw [h1, h2]
  exact ⟨rfl, rfl⟩

/-- C10 witness: a two-municipality layer rendered once filtered to "X" and
once unfiltered shows the same Municipality Summary. -/
theorem C10_witness :
    (siteSelectionView [⟨"A", "X", some 1⟩, ⟨"B", "Y", some 2⟩] "X").map
        SiteView.summary
      = (siteSelectionView [⟨"A", "X", some 1⟩, ⟨"B", "Y", some 2⟩] "All").map
        SiteView.summary :=
  (C10_summary_filter_independent [⟨"A", "X", some 1⟩, ⟨"B", "Y", some 2⟩]
    "X" "All" (by decide) (by decide)).1

end Andoks

